import Mathlib

/-!
Shallow embedding of the musolsong controller: the YAML sequence validator
(src/musolsong/controller/musolsong_tools/yaml_sequence_validator.py) and the
two modulation-processing engines (src/musolsong/controller/cli/sequence_processor.py
and src/musolsong/controller/gui/background_QT_processing.py).

Python numbers are modelled as exact rationals (the values appearing in the
claims are exactly representable), `int(x)` as truncation toward zero, and the
float `%` operator as the exact rational `a - b * floor (a / b)` (its value for
the finite positive divisors used here).  Logging and status-text emissions are
not modelled; device commands and Qt signals are recorded in an event trace.
-/

namespace Musolsong

/-- Truncation toward zero: Python `int()` applied to a number. -/
def pyInt (q : Rat) : Int :=
  if q < 0 then -(Rat.floor (-q)) else Rat.floor q

/-- Python `%` on numbers, for a positive right operand: `a - b * (a / b).floor`. -/
def pyMod (a b : Rat) : Rat := a - b * Rat.floor (a / b)

/-- A parsed YAML value, as Python sees it after `yaml.safe_load`. -/
inductive YValue where
  | yint (n : Int)
  | yfloat (q : Rat)
  | ystr (s : String)
  | ybool (b : Bool)
  | ylist (l : List YValue)
  | ydict (d : List (String × YValue))
  | ynone
deriving Repr

/-- Python `type(x).__name__` for a YAML value. -/
def pyTypeName : YValue → String
  | .yint _ => "int"
  | .yfloat _ => "float"
  | .ystr _ => "str"
  | .ybool _ => "bool"
  | .ylist _ => "list"
  | .ydict _ => "dict"
  | .ynone => "NoneType"

/-- Python `isinstance(x, (int, float))`: true for int, float and bool
(bool is a subclass of int in Python). -/
def yIsNumber : YValue → Bool
  | .yint _ => true
  | .yfloat _ => true
  | .ybool _ => true
  | _ => false

/-- The numeric value of a YAML scalar (booleans count as 0/1 in Python). -/
def yNum : YValue → Rat
  | .yint n => (n : Rat)
  | .yfloat q => q
  | .ybool b => if b then 1 else 0
  | _ => 0

/-- Python `str(x)` for the scalars that reach error messages (a model of repr;
no claim inspects the text of a message). -/
def pyStr : YValue → String
  | .yint n => toString n
  | .yfloat q => toString q
  | .ybool b => if b then "True" else "False"
  | .ystr s => s
  | _ => "None"

/-- `Modulation` dataclass of yaml_sequence_validator.py. -/
structure Modulation where
  alpha : Rat
  beta : Rat
  SONG_int_time : Rat
  description : Option String
deriving DecidableEq, Repr, Inhabited

/-- `ModeType` enum of yaml_sequence_validator.py. -/
inductive ModeType where
  | observation
  | calibration
deriving DecidableEq, Repr

/-- `_validate_angle`: appends an error and returns False unless the value is a
number in [-180, 180]. -/
def validateAngle (errors : List String) (angle : YValue) (angleName : String) :
    List String × Bool :=
  if yIsNumber angle = false then
    (errors ++ [angleName ++ " must be a number, got " ++ pyTypeName angle], false)
  else if ¬ (-180 ≤ yNum angle ∧ yNum angle ≤ 180) then
    (errors ++ [angleName ++ " must be between -180 and 180 degrees, got " ++ pyStr angle],
      false)
  else (errors, true)

/-- `_validate_integration_time`: the value must be a number in [0.1, 300]. -/
def validateIntegrationTime (errors : List String) (intTime : YValue) :
    List String × Bool :=
  if yIsNumber intTime = false then
    (errors ++ ["SONG_int_time must be a number, got " ++ pyTypeName intTime], false)
  else if ¬ ((1 : Rat)/10 ≤ yNum intTime ∧ yNum intTime ≤ 300) then
    (errors ++ ["SONG_int_time must be between 0.1 and 300 seconds, got " ++ pyStr intTime],
      false)
  else (errors, true)

/-- `_validate_retarding_plate_offsets`: the value must be a number in [1, 360]
with `360 % value == 0`. -/
def validateRetardingPlateOffsets (errors : List String) (offsets : YValue) :
    List String × Bool :=
  if yIsNumber offsets = false then
    (errors ++ ["retarding_plate_offsets must be a number, got " ++ pyTypeName offsets],
      false)
  else if ¬ (1 ≤ yNum offsets ∧ yNum offsets ≤ 360) then
    (errors ++ ["retarding_plate_offsets must be between 1 and 360 degrees, got "
      ++ pyStr offsets], false)
  else if pyMod 360 (yNum offsets) ≠ 0 then
    (errors ++ ["retarding_plate_offsets must be a factor of 360, got " ++ pyStr offsets],
      false)
  else (errors, true)

/-- `_validate_modulation`: validates one modulation entry, returning the built
`Modulation` on success and `none` (with errors appended) otherwise. -/
def validateModulation (errors : List String) (modulation : YValue) (index : Nat) :
    List String × Option Modulation :=
  match modulation with
  | .ydict d =>
    if (List.lookup "alpha" d).isNone then
      (errors ++ [s!"Modulation {index} missing required field: alpha"], none)
    else if (List.lookup "beta" d).isNone then
      (errors ++ [s!"Modulation {index} missing required field: beta"], none)
    else if (List.lookup "SONG_int_time" d).isNone then
      (errors ++ [s!"Modulation {index} missing required field: SONG_int_time"], none)
    else
      let a := (List.lookup "alpha" d).getD .ynone
      let b := (List.lookup "beta" d).getD .ynone
      let t := (List.lookup "SONG_int_time" d).getD .ynone
      let r1 := validateAngle errors a s!"Modulation {index} alpha"
      let r2 := validateAngle r1.1 b s!"Modulation {index} beta"
      let r3 := validateIntegrationTime r2.1 t
      match List.lookup "description" d with
      | some (.ystr s) =>
        if r1.2 && r2.2 && r3.2 then
          (r3.1, some ⟨yNum a, yNum b, yNum t, some s⟩)
        else (r3.1, none)
      | some .ynone =>
        if r1.2 && r2.2 && r3.2 then
          (r3.1, some ⟨yNum a, yNum b, yNum t, none⟩)
        else (r3.1, none)
      | none =>
        if r1.2 && r2.2 && r3.2 then
          (r3.1, some ⟨yNum a, yNum b, yNum t, none⟩)
        else (r3.1, none)
      | some _ =>
        (r3.1 ++ [s!"Modulation {index} description must be a string"], none)
  | _ => (errors ++ [s!"Modulation {index} must be a dictionary"], none)

/-- The loop of `_validate_mode` over the modulations list: each entry is
validated in order, the valid ones are collected, the invalid ones dropped. -/
def validateModulations (errors : List String) (mods : List YValue) (i : Nat) :
    List String × List Modulation :=
  match mods with
  | [] => (errors, [])
  | m :: rest =>
    let r := validateModulation errors m i
    let rs := validateModulations r.1 rest (i + 1)
    match r.2 with
    | some v => (rs.1, v :: rs.2)
    | none => (rs.1, rs.2)

/-- `_validate_mode`: returns (errors, success flag, the value assigned to
`self.modulations`, the value assigned to `self.retarding_plate_offsets`). -/
def validateMode (errors : List String) (modeName : String) (modeData : YValue) :
    List String × Bool × List Modulation × Option Int :=
  match modeData with
  | .ydict d =>
    match List.lookup "modulations" d with
    | none =>
      (errors ++ ["Mode \x27" ++ modeName ++ "\x27 missing required field: modulations"],
        false, [], none)
    | some ms =>
      match ms with
      | .ylist l =>
        if l.length = 0 then
          (errors ++ ["Mode \x27" ++ modeName ++ "\x27 must have at least one modulation"],
            false, [], none)
        else
          let r := validateModulations errors l 0
          if r.2.isEmpty then (r.1, false, [], none)
          else if modeName = "calibration" then
            match List.lookup "retarding_plate_offsets" d with
            | none =>
              (r.1 ++ ["Calibration mode missing required field: retarding_plate_offsets"],
                false, r.2, none)
            | some off =>
              let ro := validateRetardingPlateOffsets r.1 off
              if ro.2 then (ro.1, true, r.2, some (pyInt (yNum off)))
              else (ro.1, false, r.2, none)
          else (r.1, true, r.2, none)
      | _ =>
        (errors ++ ["Mode \x27" ++ modeName ++ "\x27 modulations must be a list"],
          false, [], none)
  | _ =>
    (errors ++ ["Mode \x27" ++ modeName ++ "\x27 must be a dictionary"], false, [], none)

/-- The validator state after a call to `validate()`.  `returned = some b` means
`validate()` returned `b`; `returned = none` means it raised (the uncaught
`KeyError` from `self.data['modes']`). -/
structure VState where
  errors : List String
  is_valid_flag : Bool
  mode_type : Option ModeType
  modulations : List Modulation
  retarding_plate_offsets : Option Int
  returned : Option Bool
deriving DecidableEq, Repr

/-- A state that returned `false` with the given errors (mode_type not set). -/
def vFail (errors : List String) : VState :=
  { errors := errors, is_valid_flag := false, mode_type := none, modulations := [],
    retarding_plate_offsets := none, returned := some false }

/-- `validate()`, applied to the already-loaded YAML value.  The state is reset,
the root must be a dict, `self.data['modes']` is read (raising `KeyError` when
the key is absent), exactly one of observation/calibration must be present, and
the present mode is validated. -/
def validate (data : YValue) : VState :=
  match data with
  | .ydict d =>
    match List.lookup "modes" d with
    | none =>
      -- `modes = self.data['modes']` raises KeyError: validate() does not return
      { errors := [], is_valid_flag := false, mode_type := none, modulations := [],
        retarding_plate_offsets := none, returned := none }
    | some modes =>
      match modes with
      | .ydict md =>
        let present := ["observation", "calibration"].filter
          (fun m => (List.lookup m md).isSome)
        if present.length = 0 then
          vFail ["At least one mode (observation or calibration) must be present"]
        else if present.length > 1 then
          vFail ["Only one mode (observation or calibration) can be present"]
        else
          let modeName := present.headD ""
          let mt : ModeType :=
            if modeName = "observation" then .observation else .calibration
          let r := validateMode [] modeName ((List.lookup modeName md).getD .ynone)
          { errors := r.1, is_valid_flag := r.2.1, mode_type := some mt,
            modulations := r.2.2.1, retarding_plate_offsets := r.2.2.2,
            returned := some r.2.1 }
      | _ => vFail ["\x27modes\x27 must be a dictionary"]
  | _ => vFail ["YAML root must be a dictionary"]

/-- `is_valid()`: despite its docstring it returns `self.errors.copy()`. -/
def is_valid (s : VState) : List String := s.errors

/-- `get_errors()`. -/
def get_errors (s : VState) : List String := s.errors

/-- `get_modulations()`. -/
def get_modulations (s : VState) : List Modulation := s.modulations

/-- `get_modulation_count()`. -/
def get_modulation_count (s : VState) : Nat := s.modulations.length

/-- `get_retarding_plate_offsets()`. -/
def get_retarding_plate_offsets (s : VState) : Option Int := s.retarding_plate_offsets

/-- `get_number_of_cycles()`: `int(360 / retarding_plate_offsets)` when in
calibration mode, `None` otherwise. -/
def get_number_of_cycles (s : VState) : Option Int :=
  match s.retarding_plate_offsets with
  | some o => some (pyInt ((360 : Rat) / (o : Rat)))
  | none => none

end Musolsong

namespace Musolsong

/-! ### Concrete plans used as inputs to the validator -/

/-- A modulation entry with an out-of-range alpha (200 degrees). -/
def badMod : YValue :=
  .ydict [("alpha", .yfloat 200), ("beta", .yfloat 90), ("SONG_int_time", .yfloat (3/2))]

/-- A modulation entry passing every field check. -/
def goodMod : YValue :=
  .ydict [("alpha", .yfloat 45), ("beta", .yfloat 90), ("SONG_int_time", .yfloat (3/2))]

/-- An observation plan whose modulations list holds one invalid and one valid
entry. -/
def exObsMixed : YValue :=
  .ydict [("modes", .ydict [("observation", .ydict [("modulations",
    .ylist [badMod, goodMod])])])]

/-- A second such plan (different angles), used for the `is_valid` claim. -/
def exObsMixed2 : YValue :=
  .ydict [("modes", .ydict [("observation", .ydict [("modulations",
    .ylist [.ydict [("alpha", .yint 0), ("beta", .yint 181), ("SONG_int_time", .yint 2)],
            .ydict [("alpha", .yint 10), ("beta", .yint 20), ("SONG_int_time", .yint 2)]])])])]

/-- An observation plan whose only modulation fails its checks. -/
def exObsAllBad : YValue :=
  .ydict [("modes", .ydict [("observation", .ydict [("modulations",
    .ylist [badMod])])])]

/-- A top-level dictionary that lacks the `modes` key. -/
def exNoModes : YValue := .ydict [("project", .ystr "x")]

/-- A calibration plan whose offset is the float 45.0 (not an int). -/
def exCalibFloat45 : YValue :=
  .ydict [("modes", .ydict [("calibration", .ydict [
    ("retarding_plate_offsets", .yfloat 45), ("modulations", .ylist [goodMod])])])]

/-- A calibration plan with integer offset 45. -/
def exCalib45 : YValue :=
  .ydict [("modes", .ydict [("calibration", .ydict [
    ("retarding_plate_offsets", .yint 45), ("modulations", .ylist [goodMod])])])]

/-- A calibration plan with integer offset 7 (not a factor of 360). -/
def exCalib7 : YValue :=
  .ydict [("modes", .ydict [("calibration", .ydict [
    ("retarding_plate_offsets", .yint 7), ("modulations", .ylist [goodMod])])])]

/-! ### Field-range invariant of stored modulations -/

/-- The spec's field range checks for a stored `Modulation`. -/
def modulationInRange (m : Modulation) : Prop :=
  -180 ≤ m.alpha ∧ m.alpha ≤ 180 ∧ -180 ≤ m.beta ∧ m.beta ≤ 180 ∧
    (1 : Rat)/10 ≤ m.SONG_int_time ∧ m.SONG_int_time ≤ 300

theorem validateAngle_shape (e : List String) (a : YValue) (n : String) :
    ∃ d, (validateAngle e a n).1 = e ++ d ∧
      ((validateAngle e a n).2 = false → d ≠ []) := by
  unfold validateAngle
  split
  · exact ⟨_, rfl, fun _ => by simp⟩
  · split
    · exact ⟨_, rfl, fun _ => by simp⟩
    · exact ⟨[], by simp, fun h => by simp at h⟩

theorem validateAngle_true (e : List String) (a : YValue) (n : String)
    (h : (validateAngle e a n).2 = true) : -180 ≤ yNum a ∧ yNum a ≤ 180 := by
  unfold validateAngle at h
  split at h
  · simp at h
  · split at h
    · simp at h
    · next h2 => exact not_not.mp (by push_neg at h2 ⊢; exact h2)

theorem validateIntegrationTime_shape (e : List String) (t : YValue) :
    ∃ d, (validateIntegrationTime e t).1 = e ++ d ∧
      ((validateIntegrationTime e t).2 = false → d ≠ []) := by
  unfold validateIntegrationTime
  split
  · exact ⟨_, rfl, fun _ => by simp⟩
  · split
    · exact ⟨_, rfl, fun _ => by simp⟩
    · exact ⟨[], by simp, fun h => by simp at h⟩

theorem validateIntegrationTime_true (e : List String) (t : YValue)
    (h : (validateIntegrationTime e t).2 = true) :
    (1 : Rat)/10 ≤ yNum t ∧ yNum t ≤ 300 := by
  unfold validateIntegrationTime at h
  split at h
  · simp at h
  · split at h
    · simp at h
    · next h2 => exact not_not.mp (by push_neg at h2 ⊢; exact h2)

theorem validateRetardingPlateOffsets_shape (e : List String) (o : YValue) :
    ∃ d, (validateRetardingPlateOffsets e o).1 = e ++ d ∧
      ((validateRetardingPlateOffsets e o).2 = false → d ≠ []) := by
  unfold validateRetardingPlateOffsets
  split
  · exact ⟨_, rfl, fun _ => by simp⟩
  · split
    · exact ⟨_, rfl, fun _ => by simp⟩
    · split
      · exact ⟨_, rfl, fun _ => by simp⟩
      · exact ⟨[], by simp, fun h => by simp at h⟩

end Musolsong

namespace Musolsong


theorem validateChecks_shape (e : List String) (a b t : YValue) (na nb : String) :
    ∃ d, (validateIntegrationTime (validateAngle (validateAngle e a na).1 b nb).1 t).1
        = e ++ d ∧
      (((validateAngle e a na).2 && (validateAngle (validateAngle e a na).1 b nb).2 &&
        (validateIntegrationTime (validateAngle (validateAngle e a na).1 b nb).1 t).2)
          = false → d ≠ []) := by
  obtain ⟨d1, hd1, hf1⟩ := validateAngle_shape e a na
  obtain ⟨d2, hd2, hf2⟩ := validateAngle_shape (validateAngle e a na).1 b nb
  obtain ⟨d3, hd3, hf3⟩ :=
    validateIntegrationTime_shape (validateAngle (validateAngle e a na).1 b nb).1 t
  refine ⟨d1 ++ d2 ++ d3, by rw [hd3, hd2, hd1]; simp, fun h => ?_⟩
  intro hnil
  simp only [List.append_eq_nil] at hnil
  by_cases h1 : (validateAngle e a na).2 = false
  · exact hf1 h1 hnil.1.1
  · replace h1 : (validateAngle e a na).2 = true := by simpa using h1
    by_cases h2 : (validateAngle (validateAngle e a na).1 b nb).2 = false
    · exact hf2 h2 hnil.1.2
    · replace h2 : (validateAngle (validateAngle e a na).1 b nb).2 = true := by
        simpa using h2
      have h3 : (validateIntegrationTime
          (validateAngle (validateAngle e a na).1 b nb).1 t).2 = false := by
        simpa [h1, h2] using h
      exact hf3 h3 hnil.2

theorem validateModulation_shape (e : List String) (m : YValue) (i : Nat) :
    ∃ d, (validateModulation e m i).1 = e ++ d ∧
      ((validateModulation e m i).2 = none → d ≠ []) := by
  unfold validateModulation
  match m with
  | .yint _ | .yfloat _ | .ystr _ | .ybool _ | .ylist _ | .ynone =>
    exact ⟨_, rfl, fun _ => by simp⟩
  | .ydict d =>
    simp only
    split
    · exact ⟨_, rfl, fun _ => by simp⟩
    split
    · exact ⟨_, rfl, fun _ => by simp⟩
    split
    · exact ⟨_, rfl, fun _ => by simp⟩
    obtain ⟨dc, hdc, hfc⟩ := validateChecks_shape e ((List.lookup "alpha" d).getD .ynone)
      ((List.lookup "beta" d).getD .ynone) ((List.lookup "SONG_int_time" d).getD .ynone)
      s!"Modulation {i} alpha" s!"Modulation {i} beta"
    split
    · split
      · exact ⟨dc, hdc, fun h => by simp at h⟩
      · next hb => exact ⟨dc, hdc, fun _ => hfc (by simpa using hb)⟩
    · split
      · exact ⟨dc, hdc, fun h => by simp at h⟩
      · next hb => exact ⟨dc, hdc, fun _ => hfc (by simpa using hb)⟩
    · split
      · exact ⟨dc, hdc, fun h => by simp at h⟩
      · next hb => exact ⟨dc, hdc, fun _ => hfc (by simpa using hb)⟩
    · exact ⟨dc ++ [s!"Modulation {i} description must be a string"],
        by rw [← List.append_assoc, ← hdc], fun _ => by simp⟩

theorem validateModulation_some (e : List String) (m : YValue) (i : Nat)
    (v : Modulation) (h : (validateModulation e m i).2 = some v) :
    modulationInRange v := by
  unfold validateModulation at h
  match m with
  | .yint _ | .yfloat _ | .ystr _ | .ybool _ | .ylist _ | .ynone => simp at h
  | .ydict d =>
    simp only at h
    split at h
    · simp at h
    split at h
    · simp at h
    split at h
    · simp at h
    split at h <;> [skip; skip; skip; simp at h] <;>
      · split at h
        · next hok =>
          simp only [Bool.and_eq_true] at hok
          obtain ⟨⟨h1, h2⟩, h3⟩ := hok
          obtain ⟨a1, a2⟩ := validateAngle_true _ _ _ h1
          obtain ⟨b1, b2⟩ := validateAngle_true _ _ _ h2
          obtain ⟨t1, t2⟩ := validateIntegrationTime_true _ _ h3
          simp only [Option.some_inj] at h
          subst h
          exact ⟨a1, a2, b1, b2, t1, t2⟩
        · simp at h

end Musolsong

namespace Musolsong

theorem validateModulations_shape (mods : List YValue) (e : List String) (i : Nat) :
    ∃ d, (validateModulations e mods i).1 = e ++ d ∧
      (mods ≠ [] → (validateModulations e mods i).2 = [] → d ≠ []) := by
  induction mods generalizing e i with
  | nil => exact ⟨[], by simp [validateModulations], fun h => absurd rfl h⟩
  | cons m rest ih =>
    obtain ⟨d1, hd1, hf1⟩ := validateModulation_shape e m i
    obtain ⟨d2, hd2, hf2⟩ := ih (validateModulation e m i).1 (i + 1)
    refine ⟨d1 ++ d2, ?_, ?_⟩
    · unfold validateModulations
      dsimp only
      split <;> rw [hd2, hd1, List.append_assoc]
    · intro _ hempty
      unfold validateModulations at hempty
      dsimp only at hempty
      split at hempty
      · simp at hempty
      · next hnone =>
        have := hf1 hnone
        intro hnil
        simp only [List.append_eq_nil] at hnil
        exact this hnil.1

theorem validateModulations_mem (mods : List YValue) (e : List String) (i : Nat)
    (v : Modulation) (h : v ∈ (validateModulations e mods i).2) :
    modulationInRange v := by
  induction mods generalizing e i with
  | nil => simp [validateModulations] at h
  | cons m rest ih =>
    unfold validateModulations at h
    dsimp only at h
    split at h
    · next hsome =>
      rcases List.mem_cons.mp h with h | h
      · subst h; exact validateModulation_some _ _ _ _ hsome
      · exact ih _ _ h
    · exact ih _ _ h

theorem validateMode_shape (e : List String) (n : String) (md : YValue) :
    ∃ d, (validateMode e n md).1 = e ++ d ∧
      ((validateMode e n md).2.1 = false → d ≠ []) := by
  unfold validateMode
  match md with
  | .yint _ | .yfloat _ | .ystr _ | .ybool _ | .ylist _ | .ynone =>
    exact ⟨_, rfl, fun _ => by simp⟩
  | .ydict d =>
    simp only
    split
    · exact ⟨_, rfl, fun _ => by simp⟩
    · next ms hms =>
      match ms, hms with
      | .ylist l, hms =>
        simp only
        split
        · exact ⟨_, rfl, fun _ => by simp⟩
        · next hlen =>
          obtain ⟨d1, hd1, hf1⟩ := validateModulations_shape l e 0
          split
          · next hempty =>
            refine ⟨d1, hd1, fun _ => ?_⟩
            exact hf1 (List.length_eq_zero.not.mp hlen |> fun h => by
              intro hc; exact h (by simp [hc])) (List.isEmpty_iff.mp hempty)
          · split
            · split
              · exact ⟨d1 ++ ["Calibration mode missing required field: retarding_plate_offsets"],
                  by rw [← List.append_assoc, ← hd1], fun _ => by simp⟩
              · next off hoff =>
                obtain ⟨d2, hd2, hf2⟩ :=
                  validateRetardingPlateOffsets_shape (validateModulations e l 0).1 off
                split
                · exact ⟨d1 ++ d2, by rw [hd2, hd1, List.append_assoc], fun h => by simp at h⟩
                · next hro =>
                  refine ⟨d1 ++ d2, by rw [hd2, hd1, List.append_assoc], fun _ => ?_⟩
                  intro hnil
                  simp only [List.append_eq_nil] at hnil
                  exact hf2 (by simpa using hro) hnil.2
            · exact ⟨d1, hd1, fun h => by simp at h⟩
      | .yint _, hms | .yfloat _, hms | .ystr _, hms | .ybool _, hms
      | .ydict _, hms | .ynone, hms =>
        exact ⟨_, rfl, fun _ => by simp⟩

theorem validateMode_mem (e : List String) (n : String) (md : YValue)
    (v : Modulation) (h : v ∈ (validateMode e n md).2.2.1) :
    modulationInRange v := by
  unfold validateMode at h
  match md with
  | .yint _ | .yfloat _ | .ystr _ | .ybool _ | .ylist _ | .ynone => simp at h
  | .ydict d =>
    simp only at h
    split at h
    · simp at h
    · next ms hms =>
      match ms, hms with
      | .ylist l, hms =>
        simp only at h
        split at h
        · simp at h
        · split at h
          · simp at h
          · split at h
            · split at h
              · exact validateModulations_mem l e 0 v (by simpa using h)
              · split at h
                · exact validateModulations_mem l e 0 v (by simpa using h)
                · exact validateModulations_mem l e 0 v (by simpa using h)
            · exact validateModulations_mem l e 0 v (by simpa using h)
      | .yint _, hms | .yfloat _, hms | .ystr _, hms | .ybool _, hms
      | .ydict _, hms | .ynone, hms => simp at h

/-- Every `Modulation` the validator stores passes its field range checks. -/
theorem validate_mem_inRange (v : YValue) (m : Modulation)
    (h : m ∈ (validate v).modulations) : modulationInRange m := by
  unfold validate at h
  match v with
  | .yint _ | .yfloat _ | .ystr _ | .ybool _ | .ylist _ | .ynone =>
    simp [vFail] at h
  | .ydict d =>
    simp only at h
    split at h
    · simp at h
    · next modes hmodes =>
      match modes, hmodes with
      | .ydict md, hmodes =>
        simp only at h
        split at h
        · simp [vFail] at h
        · split at h
          · simp [vFail] at h
          · exact validateMode_mem _ _ _ _ h
      | .yint _, hmodes | .yfloat _, hmodes | .ystr _, hmodes | .ybool _, hmodes
      | .ylist _, hmodes | .ynone, hmodes => simp [vFail] at h

/-- A validation that returns False leaves a non-empty error list. -/
theorem validate_false_errors (v : YValue) :
    (validate v).returned = some false → (validate v).errors ≠ [] := by
  unfold validate
  match v with
  | .yint _ | .yfloat _ | .ystr _ | .ybool _ | .ylist _ | .ynone =>
    intro _; simp [vFail]
  | .ydict d =>
    simp only
    split
    · intro h; simp at h
    · next modes hmodes =>
      match modes, hmodes with
      | .ydict md, hmodes =>
        simp only
        split
        · intro _; simp [vFail]
        · split
          · intro _; simp [vFail]
          · intro h
            obtain ⟨dd, hdd, hfd⟩ := validateMode_shape []
              ((["observation", "calibration"].filter
                (fun m => (List.lookup m md).isSome)).headD "")
              ((List.lookup ((["observation", "calibration"].filter
                (fun m => (List.lookup m md).isSome)).headD "") md).getD .ynone)
            dsimp only at h ⊢
            rw [hdd]
            simp only [Option.some_inj] at h
            simpa using hfd h
      | .yint _, hmodes | .yfloat _, hmodes | .ystr _, hmodes | .ybool _, hmodes
      | .ylist _, hmodes | .ynone, hmodes => intro _; simp [vFail]

end Musolsong

namespace Musolsong

/-- `Rat.floor` is the floor of the `FloorRing` instance on `ℚ`. -/
theorem ratFloor_eq (q : Rat) : Rat.floor q = ⌊q⌋ := rfl

unseal Rat.add Rat.mul Rat.inv Rat.sub in
/-- C4 (counterexample): the plan `exObsMixed` has a modulation failing its
range checks (alpha = 200), yet `validate()` returns True; the failing
modulation is silently dropped (one of two entries is kept). -/
theorem claim4_counterexample :
    (validate exObsMixed).returned = some true ∧
      (validate exObsMixed).errors ≠ [] ∧
      (validate exObsMixed).modulations.length = 1 := by decide

unseal Rat.add Rat.mul Rat.inv Rat.sub in
/-- C4 (amended): a plan is rejected only when no modulation passes (the plan
`exObsAllBad`, whose sole modulation fails, is rejected); modulations failing
their checks are dropped while validation still succeeds if at least one
passes; and every `Modulation` the validator stores passes its field range
checks. -/
theorem claim4_amended :
    (∀ v : YValue, ∀ m ∈ (validate v).modulations, modulationInRange m) ∧
      (validate exObsAllBad).returned = some false ∧
      (validate exObsMixed).returned = some true := by
  refine ⟨fun v m h => validate_mem_inRange v m h, by decide, by decide⟩

unseal Rat.add Rat.mul Rat.inv Rat.sub in
/-- C5 (code_bug): on a top-level dictionary lacking the `modes` key,
`validate()` raises `KeyError` (modelled as `returned = none`) with an empty
error list instead of returning False with a message; other schema violations
(a non-dict root for instance) are reported as claimed: False with a
non-empty human-readable error list. -/
theorem claim5_theorem :
    ((validate exNoModes).returned = none ∧ (validate exNoModes).errors = []) ∧
      ((validate (.ystr "x")).returned = some false ∧
        get_errors (validate (.ystr "x")) ≠ []) ∧
      (∀ v : YValue, (validate v).returned = some false → get_errors (validate v) ≠ []) := by
  exact ⟨by decide, ⟨by decide, by decide⟩, fun v => validate_false_errors v⟩

unseal Rat.add Rat.mul Rat.inv Rat.sub in
/-- C6 (counterexample): the float value 45.0 for `retarding_plate_offsets` is
not an integer, yet the calibration plan carrying it is accepted and the
offset stored as 45. -/
theorem claim6_counterexample :
    (validate exCalibFloat45).returned = some true ∧
      (validate exCalibFloat45).retarding_plate_offsets = some 45 := by decide

unseal Rat.add Rat.mul Rat.inv Rat.sub in
/-- C6 (amended): `retarding_plate_offsets` is accepted exactly when it is a
number (int, float or bool — not necessarily an integer) in [1, 360] with
`360 % value == 0`; for values ≥ 1 that condition says the value divides 360
over the rationals; offset 7 is rejected, offset 45 is accepted, and the
accepted plan with offset 45 yields `get_number_of_cycles() = 8`. -/
theorem claim6_amended :
    (∀ off : YValue, (validateRetardingPlateOffsets [] off).2 = true ↔
      (yIsNumber off = true ∧ 1 ≤ yNum off ∧ yNum off ≤ 360 ∧
        pyMod 360 (yNum off) = 0)) ∧
      (∀ q : Rat, 1 ≤ q → (pyMod 360 q = 0 ↔ ∃ k : Int, (k : Rat) * q = 360)) ∧
      (validateRetardingPlateOffsets [] (.yint 7)).2 = false ∧
      (validateRetardingPlateOffsets [] (.yint 45)).2 = true ∧
      ((validate exCalib45).returned = some true ∧
        get_number_of_cycles (validate exCalib45) = some 8) := by
  refine ⟨?_, ?_, by decide, by decide, by decide, by decide⟩
  · intro off
    unfold validateRetardingPlateOffsets
    constructor
    · intro h
      split at h
      · simp at h
      split at h
      · simp at h
      split at h
      · simp at h
      · next h1 h2 h3 =>
        push_neg at h2
        exact ⟨by simpa using h1, h2.1, h2.2, not_not.mp h3⟩
    · rintro ⟨h1, h2, h3, h4⟩
      split
      · next hc => simp [h1] at hc
      split
      · next hc => exact absurd ⟨h2, h3⟩ hc
      split
      · next hc => exact absurd h4 (by simpa using hc)
      · rfl
  · intro q hq
    have hq0 : q ≠ 0 := by positivity
    constructor
    · intro h
      unfold pyMod at h
      rw [ratFloor_eq] at h
      exact ⟨⌊(360 : Rat) / q⌋, by linarith⟩
    · rintro ⟨k, hk⟩
      unfold pyMod
      rw [ratFloor_eq]
      have hdiv : (360 : Rat) / q = (k : Rat) := by
        rw [← hk]
        field_simp
      rw [hdiv, Int.floor_intCast]
      linarith

unseal Rat.add Rat.mul Rat.inv Rat.sub in
/-- C10 (counterexample): after validating `exObsMixed2` (one invalid, one
valid modulation) `validate()` returned True, yet `is_valid()` returns a
non-empty (truthy) list. -/
theorem claim10_counterexample :
    (validate exObsMixed2).returned = some true ∧
      is_valid (validate exObsMixed2) ≠ [] := by decide

unseal Rat.add Rat.mul Rat.inv Rat.sub in
/-- C10 (amended): `is_valid()` returns the accumulated error list (not a
boolean); the list is non-empty whenever the last validation returned False,
but a validation that returns True can also leave a non-empty list (invalid
modulations were dropped), so falsiness of `is_valid()` does not coincide
exactly with the last validation's success. -/
theorem claim10_amended :
    (∀ s : VState, is_valid s = s.errors) ∧
      (∀ v : YValue, (validate v).returned = some false → is_valid (validate v) ≠ []) ∧
      ((validate exObsMixed2).returned = some true ∧
        is_valid (validate exObsMixed2) ≠ []) := by
  exact ⟨fun _ => rfl, fun v => validate_false_errors v, by decide, by decide⟩

end Musolsong

namespace Musolsong

/-! ### Engine embedding

`ModData` is the `mod_data` dictionary prepared by `prepare_data_for_processing`
and `process_modulation_data`; `Env` gives the devices' responses (indexed by
cycle and step, each pair is queried at most once per run) and the abort flag's
value at each per-step check.  A run produces a list of `Event`s (device
commands and Qt signals, in order) together with its returned value. -/

/-- The data prepared for processing (`mod_data` / `input_data`). -/
structure ModData where
  modulations : List Modulation
  mode_uppercase : String
  modulations_count : Nat
  number_of_cycles : Nat
  offset_angle : Rat
  proj_number : Int
  proj_name : String
deriving Repr

/-- Device behaviour: status codes returned by the PLC `set_mode`, the PLC
`set_modulation` and the SONG acquire command, the PLC's returned
(alpha, beta, theta, translation_unit) tuple, and the abort flag's value at the
check of a given (cycle, step). -/
structure Env where
  set_mode_status : Int
  aborted : Nat → Nat → Bool
  plc_status : Nat → Nat → Int
  plc_ret : Nat → Nat → Rat × Rat × Rat × Rat
  song_status : Nat → Nat → Int

/-- The dictionary built by `prepare_updated_data_for_GUI` and emitted through
the `progress_updated` signal. -/
structure GuiStatus where
  percetage_done : Int
  number_of_cycles : Nat
  current_cycle : Nat
  current_step : Nat
  alpha : Rat
  beta : Rat
  theta : Rat
  translation_unit : Rat
  SONG_int_time : Rat
deriving DecidableEq, Repr

/-- `prepare_updated_data_for_GUI`: completion percentage is
`int(((cycle-1)*count + step - 1) / (count * number_of_cycles) * 100)`. -/
def prepare_updated_data_for_GUI (modulations_count number_of_cycles cycle step : Nat)
    (alpha beta theta translation_unit SONG_int_time : Rat) : GuiStatus :=
  let total_steps := modulations_count
  let total_modulations_to_be_processed := total_steps * number_of_cycles
  let modulations_sofar_processsed := (cycle - 1) * total_steps + step - 1
  let percentage_done := pyInt ((modulations_sofar_processsed : Rat)
    / (total_modulations_to_be_processed : Rat) * 100)
  { percetage_done := percentage_done, number_of_cycles := number_of_cycles,
    current_cycle := cycle, current_step := step, alpha := alpha, beta := beta,
    theta := theta, translation_unit := translation_unit,
    SONG_int_time := SONG_int_time }

/-- An observable event of a run: a device command or an emitted Qt signal. -/
inductive Event where
  | set_mode (mode : String)
  | plc_set_modulation (alpha beta : Rat) (theta : Option Rat)
  | progress (d : GuiStatus)
  | song_acquire (proj_nr : Int) (proj_name : String) (int_time : Rat)
      (image_type : String) (alpha beta theta : Rat) (description : String)
  | abort_stop (step cycle : Nat)
  | plc_fail (step cycle : Nat)
  | song_fail (step cycle : Nat)
  | finished (ok : Bool)
deriving DecidableEq, Repr

/-- The description actually passed to SONG: `" "` when absent or empty. -/
def descOf (m : Modulation) : String :=
  match m.description with
  | none => " "
  | some s => if s = "" then " " else s

/-- The per-step loop of the CLI `process_modulations` (the `for i in
range(modulations_count)` body), from 0-based index `i` with `remaining`
iterations left.  Returns the events of the processed steps and the function's
return value: 0 on success, 1 on a device failure, 2 on abort. -/
def cli_steps (env : Env) (md : ModData) (cycle : Nat) (thetaPLC : Option Rat)
    (thetaSONG : Rat) (image_type : String) : Nat → Nat → List Event × Int
  | _, 0 => ([], 0)
  | i, r + 1 =>
    let step := i + 1
    if env.aborted cycle step then ([.abort_stop step cycle], 2)
    else
      let m := md.modulations.getD i default
      let e1 := Event.plc_set_modulation m.alpha m.beta thetaPLC
      if env.plc_status cycle step ≠ 0 then ([e1, .plc_fail step cycle], 1)
      else
        let e2 := Event.song_acquire md.proj_number md.proj_name m.SONG_int_time
          image_type m.alpha m.beta thetaSONG (descOf m)
        if env.song_status cycle step ≠ 0 then ([e1, e2, .song_fail step cycle], 1)
        else
          let rest := cli_steps env md cycle thetaPLC thetaSONG image_type (i + 1) r
          (e1 :: e2 :: rest.1, rest.2)

/-- CLI `process_modulations(mod_data, current_cycle, current_theta)`:
theta 999 is the sentinel for observation mode (PLC theta `None`, image type
`"SUN"`); otherwise both devices receive `current_theta` and the image type is
`"CALIB"`. -/
def cli_process_modulations (env : Env) (md : ModData) (current_cycle : Nat)
    (current_theta : Rat) : List Event × Int :=
  if current_theta ≠ 999 then
    cli_steps env md current_cycle (some current_theta) current_theta "CALIB"
      0 md.modulations_count
  else
    cli_steps env md current_cycle none current_theta "SUN" 0 md.modulations_count

/-- The calibration cycle loop of the CLI `process_modulation_data`
(`for i in range(number_of_cycles)`), with `n` cycles left, the next cycle
number and the current theta.  Stops at the first per-cycle result ≥ 1. -/
def cli_cycles (env : Env) (md : ModData) : Nat → Nat → Rat → List Event × Bool
  | 0, _, _ => ([], true)
  | n + 1, current_cycle, current_theta =>
    let r := cli_process_modulations env md current_cycle current_theta
    if r.2 ≥ 1 then (r.1, false)
    else
      let rest := cli_cycles env md n (current_cycle + 1)
        (current_theta + md.offset_angle)
      (r.1 ++ rest.1, rest.2)

/-- CLI `process_modulation_data`: sends `set_mode`, then one observation pass
(theta 999) or the calibration cycle loop (theta starting at 0, incremented by
the offset angle); returns True only when everything succeeded. -/
def cli_process_modulation_data (env : Env) (md : ModData) : List Event × Bool :=
  let e0 := Event.set_mode md.mode_uppercase
  if env.set_mode_status ≠ 0 then ([e0], false)
  else if md.mode_uppercase = "OBSERVATION" then
    let r := cli_process_modulations env md 1 999
    if r.2 ≥ 1 then (e0 :: r.1, false) else (e0 :: r.1, true)
  else
    let r := cli_cycles env md md.number_of_cycles 1 0
    (e0 :: r.1, r.2)

/-- The per-step loop of the GUI worker's `process_modulations`: like the CLI
one, except that abort returns 1 (not 2) and that after a successful PLC call
the worker emits a `progress_updated` signal (built from the PLC's returned
values) before sending the SONG acquire command. -/
def gui_steps (env : Env) (md : ModData) (cycle : Nat) (thetaPLC : Option Rat)
    (thetaSONG : Rat) (image_type : String) : Nat → Nat → List Event × Int
  | _, 0 => ([], 0)
  | i, r + 1 =>
    let step := i + 1
    if env.aborted cycle step then ([.abort_stop step cycle], 1)
    else
      let m := md.modulations.getD i default
      let e1 := Event.plc_set_modulation m.alpha m.beta thetaPLC
      if env.plc_status cycle step ≠ 0 then ([e1, .plc_fail step cycle], 1)
      else
        let pr := env.plc_ret cycle step
        let ep := Event.progress (prepare_updated_data_for_GUI md.modulations_count
          md.number_of_cycles cycle step pr.1 pr.2.1 pr.2.2.1 pr.2.2.2 m.SONG_int_time)
        let e2 := Event.song_acquire md.proj_number md.proj_name m.SONG_int_time
          image_type m.alpha m.beta thetaSONG (descOf m)
        if env.song_status cycle step ≠ 0 then ([e1, ep, e2, .song_fail step cycle], 1)
        else
          let rest := gui_steps env md cycle thetaPLC thetaSONG image_type (i + 1) r
          (e1 :: ep :: e2 :: rest.1, rest.2)

/-- GUI `process_modulations(cycle, modulations, current_theta)`. -/
def gui_process_modulations (env : Env) (md : ModData) (cycle : Nat)
    (current_theta : Rat) : List Event × Int :=
  if current_theta ≠ 999 then
    gui_steps env md cycle (some current_theta) current_theta "CALIB"
      0 md.modulations_count
  else
    gui_steps env md cycle none current_theta "SUN" 0 md.modulations_count

/-- The calibration cycle loop of the GUI `process_modulation_data`. -/
def gui_cycles (env : Env) (md : ModData) : Nat → Nat → Rat → List Event × Int
  | 0, _, _ => ([], 0)
  | n + 1, current_cycle, current_theta =>
    let r := gui_process_modulations env md current_cycle current_theta
    if r.2 = 1 then (r.1, 1)
    else
      let rest := gui_cycles env md n (current_cycle + 1)
        (current_theta + md.offset_angle)
      (r.1 ++ rest.1, rest.2)

/-- GUI `process_modulation_data`: on set_mode success runs the observation
pass or the calibration loop and emits `processing_finished(False)` on any
failure or abort, `processing_finished(True)` on completion; on set_mode
failure emits `processing_finished(False)`.  The returned Bool is the
emitted signal's payload. -/
def gui_process_modulation_data (env : Env) (md : ModData) : List Event × Bool :=
  let e0 := Event.set_mode md.mode_uppercase
  if env.set_mode_status = 0 then
    if md.mode_uppercase = "OBSERVATION" then
      let r := gui_process_modulations env md 1 999
      if r.2 = 1 then (e0 :: r.1 ++ [.finished false], false)
      else (e0 :: r.1 ++ [.finished true], true)
    else
      let r := gui_cycles env md md.number_of_cycles 1 0
      if r.2 = 1 then (e0 :: r.1 ++ [.finished false], false)
      else (e0 :: r.1 ++ [.finished true], true)
  else ([e0, .finished false], false)

/-- The percentages carried by the progress events of a trace, in order. -/
def progressPercentages (tr : List Event) : List Int :=
  tr.filterMap fun e =>
    match e with
    | .progress d => some d.percetage_done
    | _ => none

/-- The `(plc_set_modulation, song_acquire)` event pair of one fully processed
step. -/
def stepPair (md : ModData) (thetaPLC : Option Rat) (thetaSONG : Rat)
    (image_type : String) (m : Modulation) : List Event :=
  [.plc_set_modulation m.alpha m.beta thetaPLC,
   .song_acquire md.proj_number md.proj_name m.SONG_int_time image_type
     m.alpha m.beta thetaSONG (descOf m)]

/-- The event list of one fully processed calibration cycle at angle `theta`. -/
def cyclePairs (md : ModData) (theta : Rat) : List Event :=
  (md.modulations.map (stepPair md (some theta) theta "CALIB")).flatten

/-- The event list of a fully processed observation pass. -/
def obsPairs (md : ModData) : List Event :=
  (md.modulations.map (stepPair md none 999 "SUN")).flatten

/-- All device calls succeed and the abort flag is never set. -/
def EnvOk (env : Env) : Prop :=
  env.set_mode_status = 0 ∧ (∀ c s, env.aborted c s = false) ∧
    (∀ c s, env.plc_status c s = 0) ∧ (∀ c s, env.song_status c s = 0)

end Musolsong

namespace Musolsong

/-! ### Concrete runs -/

/-- Devices that always succeed, abort never requested. -/
def exEnvOk : Env :=
  { set_mode_status := 0, aborted := fun _ _ => false, plc_status := fun _ _ => 0,
    plc_ret := fun _ _ => (1, 2, 3, 4), song_status := fun _ _ => 0 }

/-- Abort flag set from the very first check. -/
def exEnvAbort : Env := { exEnvOk with aborted := fun _ _ => true }

/-- The detector (SONG) returns a non-zero status on every acquire. -/
def exEnvSongFail : Env := { exEnvOk with song_status := fun _ _ => 7 }

/-- The positioner (PLC) fails every set_modulation. -/
def exEnvPlcFail : Env := { exEnvOk with plc_status := fun _ _ => 3 }

/-- An observation run with two modulations. -/
def mdObs2 : ModData :=
  { modulations := [⟨45, 90, 3/2, none⟩, ⟨-30, 60, 2, some "snd"⟩],
    mode_uppercase := "OBSERVATION", modulations_count := 2, number_of_cycles := 1,
    offset_angle := 0, proj_number := 7, proj_name := "obs" }

/-- A calibration run with offset 90 and two modulations per cycle (4 cycles). -/
def mdCalib90 : ModData :=
  { modulations := [⟨10, 20, 1, none⟩, ⟨-30, 40, 2, some "x"⟩],
    mode_uppercase := "CALIBRATION", modulations_count := 2, number_of_cycles := 4,
    offset_angle := 90, proj_number := 1, proj_name := "cal" }

/-! ### All-success trace lemmas (CLI) -/

theorem cli_steps_ok (env : Env) (md : ModData) (cycle : Nat) (thetaPLC : Option Rat)
    (thetaSONG : Rat) (it : String)
    (hab : ∀ s, env.aborted cycle s = false)
    (hplc : ∀ s, env.plc_status cycle s = 0)
    (hsong : ∀ s, env.song_status cycle s = 0) :
    ∀ r i, i + r ≤ md.modulations.length →
      cli_steps env md cycle thetaPLC thetaSONG it i r =
        ((((md.modulations.drop i).take r).map
          (stepPair md thetaPLC thetaSONG it)).flatten, 0) := by
  intro r
  induction r with
  | zero => intro i _; simp [cli_steps]
  | succ n ih =>
    intro i hlen
    have hi : i < md.modulations.length := by omega
    have hgetD : md.modulations.getD i default = md.modulations[i] := by
      simp [List.getD_eq_getElem?_getD, List.getElem?_eq_getElem hi]
    have hdrop : md.modulations.drop i = md.modulations[i] :: md.modulations.drop (i + 1) :=
      List.drop_eq_getElem_cons hi
    rw [cli_steps]
    simp only [hab, hplc, hsong, if_neg, ite_false, if_false]
    rw [ih (i + 1) (by omega)]
    simp only [hdrop, List.take_succ_cons, List.map_cons, List.flatten_cons, hgetD]
    simp [stepPair]

theorem cli_process_modulations_calib (env : Env) (md : ModData) (cycle : Nat)
    (theta : Rat) (hθ : theta ≠ 999)
    (hcount : md.modulations_count = md.modulations.length)
    (hab : ∀ s, env.aborted cycle s = false)
    (hplc : ∀ s, env.plc_status cycle s = 0)
    (hsong : ∀ s, env.song_status cycle s = 0) :
    cli_process_modulations env md cycle theta = (cyclePairs md theta, 0) := by
  rw [cli_process_modulations, if_pos hθ,
    cli_steps_ok env md cycle (some theta) theta "CALIB" hab hplc hsong
      md.modulations_count 0 (by omega)]
  simp [cyclePairs, hcount]

theorem cli_process_modulations_obs (env : Env) (md : ModData) (cycle : Nat)
    (hcount : md.modulations_count = md.modulations.length)
    (hab : ∀ s, env.aborted cycle s = false)
    (hplc : ∀ s, env.plc_status cycle s = 0)
    (hsong : ∀ s, env.song_status cycle s = 0) :
    cli_process_modulations env md cycle 999 = (obsPairs md, 0) := by
  rw [cli_process_modulations, if_neg (by simp),
    cli_steps_ok env md cycle none 999 "SUN" hab hplc hsong
      md.modulations_count 0 (by omega)]
  simp [obsPairs, hcount]

theorem cli_cycles_ok (env : Env) (md : ModData)
    (hcount : md.modulations_count = md.modulations.length)
    (hab : ∀ c s, env.aborted c s = false)
    (hplc : ∀ c s, env.plc_status c s = 0)
    (hsong : ∀ c s, env.song_status c s = 0) :
    ∀ (n : Nat) (cidx : Nat) (theta : Rat),
      (∀ j, j < n → theta + (j : Rat) * md.offset_angle ≠ 999) →
      cli_cycles env md n cidx theta =
        (((List.range n).map
          (fun j : Nat => cyclePairs md (theta + (j : Rat) * md.offset_angle))).flatten, true) := by
  intro n
  induction n with
  | zero => intro cidx theta _; simp [cli_cycles]
  | succ m ih =>
    intro cidx theta hθ
    have h0 : theta ≠ 999 := by simpa using hθ 0 (Nat.succ_pos m)
    have hθ2 : ∀ j, j < m →
        theta + md.offset_angle + (j : Rat) * md.offset_angle ≠ 999 := by
      intro j hj
      have h := hθ (j + 1) (by omega)
      have : theta + ((j : Nat) + 1 : Rat) * md.offset_angle
          = theta + md.offset_angle + (j : Rat) * md.offset_angle := by ring
      rw [← this]
      simpa using h
    have hmap : List.map ((fun j : Nat => cyclePairs md (theta + (j : Rat) * md.offset_angle))
          ∘ Nat.succ) (List.range m)
        = List.map (fun j : Nat => cyclePairs md
          (theta + md.offset_angle + (j : Rat) * md.offset_angle)) (List.range m) := by
      apply List.map_congr_left
      intro a _
      simp only [Function.comp_apply, Nat.succ_eq_add_one]
      congr 1
      push_cast
      ring
    rw [cli_cycles]
    rw [cli_process_modulations_calib env md cidx theta h0 hcount
      (hab cidx) (hplc cidx) (hsong cidx)]
    simp only [ge_iff_le]
    rw [if_neg (by norm_num)]
    rw [ih (cidx + 1) (theta + md.offset_angle) hθ2]
    rw [List.range_succ_eq_map, List.map_cons, List.flatten_cons, List.map_map, hmap]
    simp

end Musolsong

namespace Musolsong

/-- C7: for every all-success run of a valid Observation plan the CLI engine
issues exactly one set_mode, then exactly the N (positioner, detector) pairs in
stored modulation order, and returns success — with a single pass (one cycle)
regardless of the value of `number_of_cycles`. -/
theorem claim7_theorem (env : Env) (md : ModData) (henv : EnvOk env)
    (hmode : md.mode_uppercase = "OBSERVATION")
    (hcount : md.modulations_count = md.modulations.length) :
    cli_process_modulation_data env md =
      (Event.set_mode "OBSERVATION" :: obsPairs md, true) := by
  obtain ⟨hsm, hab, hplc, hsong⟩ := henv
  rw [cli_process_modulation_data]
  rw [if_neg (by simp [hsm]), if_pos hmode]
  rw [cli_process_modulations_obs env md 1 hcount (hab 1) (hplc 1) (hsong 1)]
  simp [hmode]

/-- C7 witness: the concrete observation run `mdObs2` under `exEnvOk`. -/
theorem claim7_witness :
    cli_process_modulation_data exEnvOk mdObs2 =
      (Event.set_mode "OBSERVATION" :: obsPairs mdObs2, true) :=
  claim7_theorem exEnvOk mdObs2
    ⟨rfl, fun _ _ => rfl, fun _ _ => rfl, fun _ _ => rfl⟩ rfl rfl

/-- C8: for every all-success run of a valid Calibration plan with offset `O`
(`O` divides 360, `number_of_cycles = 360 / O` as prepared from
`get_number_of_cycles`), the CLI engine performs exactly `360 / O` cycles and
the theta sent to both the positioner and the detector during cycle `i`
(1-indexed, `i = j + 1`) is `(i - 1) * O`. -/
theorem claim8_theorem (env : Env) (md : ModData) (O : Nat) (henv : EnvOk env)
    (hmode : md.mode_uppercase ≠ "OBSERVATION")
    (hcount : md.modulations_count = md.modulations.length)
    (hO : 1 ≤ O) (hdiv : O ∣ 360)
    (hoff : md.offset_angle = (O : Rat))
    (hn : md.number_of_cycles = 360 / O) :
    cli_process_modulation_data env md =
      (Event.set_mode md.mode_uppercase ::
        ((List.range (360 / O)).map
          (fun j : Nat => cyclePairs md ((j : Rat) * (O : Rat)))).flatten, true) := by
  obtain ⟨hsm, hab, hplc, hsong⟩ := henv
  have hO360 : O ≤ 360 := Nat.le_of_dvd (by norm_num) hdiv
  have hθ : ∀ j, j < md.number_of_cycles →
      (0 : Rat) + (j : Rat) * md.offset_angle ≠ 999 := by
    intro j hj
    rw [hoff, zero_add]
    have hjO : j * O + O ≤ 360 := by
      rw [hn] at hj
      have h2 : (j + 1) * O ≤ (360 / O) * O := Nat.mul_le_mul_right O hj
      have h3 : (360 / O) * O = 360 := Nat.div_mul_cancel hdiv
      rw [h3, Nat.succ_mul] at h2
      omega
    have hcast : ((j * O : Nat) : Rat) + ((O : Nat) : Rat) ≤ 360 := by
      rw [← Nat.cast_add]
      exact_mod_cast hjO
    have hO1 : (1 : Rat) ≤ (O : Rat) := by exact_mod_cast hO
    push_cast at hcast
    intro hcontra
    rw [hcontra] at hcast
    linarith
  rw [cli_process_modulation_data]
  rw [if_neg (by simp [hsm]), if_neg hmode]
  rw [cli_cycles_ok env md hcount hab hplc hsong md.number_of_cycles 1 0 hθ]
  rw [hn]
  simp only [zero_add, hoff]

/-- C8 witness: the concrete calibration run with offset 90 and two
modulations (`mdCalib90`) under `exEnvOk`: 4 cycles at thetas 0, 90, 180, 270. -/
theorem claim8_witness :
    cli_process_modulation_data exEnvOk mdCalib90 =
      (Event.set_mode "CALIBRATION" ::
        ((List.range (360 / 90)).map
          (fun j : Nat => cyclePairs mdCalib90 ((j : Rat) * (90 : Rat)))).flatten, true) := by
  have h := claim8_theorem exEnvOk mdCalib90 90
    ⟨rfl, fun _ _ => rfl, fun _ _ => rfl, fun _ _ => rfl⟩
    (by decide) rfl (by norm_num) (by norm_num) (by norm_num [mdCalib90]) rfl
  simpa using h

end Musolsong

namespace Musolsong

/-- The trailing events of a step whose detector (SONG) call fails: the
(positioner, detector) pair of step `k` followed by the failure record. -/
def stepFail (md : ModData) (thetaPLC : Option Rat) (thetaSONG : Rat)
    (it : String) (k cycle : Nat) : List Event :=
  stepPair md thetaPLC thetaSONG it (md.modulations.getD (k - 1) default)
    ++ [.song_fail k cycle]

/-- The events of a calibration cycle `c` at angle `theta` that stops because
the detector fails on step `k`: the first `k - 1` full pairs, then the failing
step's pair and the failure record — and nothing after. -/
def partialCalib (md : ModData) (theta : Rat) (k c : Nat) : List Event :=
  ((md.modulations.take (k - 1)).map (stepPair md (some theta) theta "CALIB")).flatten
    ++ stepFail md (some theta) theta "CALIB" k c

theorem cli_steps_songfail (env : Env) (md : ModData) (cycle : Nat)
    (thetaPLC : Option Rat) (thetaSONG : Rat) (it : String) (k : Nat)
    (hab : ∀ s, s ≤ k → env.aborted cycle s = false)
    (hplc : ∀ s, s ≤ k → env.plc_status cycle s = 0)
    (hsong_ok : ∀ s, s < k → env.song_status cycle s = 0)
    (hfail : env.song_status cycle k ≠ 0)
    (hlen : k ≤ md.modulations.length) :
    ∀ r i, i < k → k ≤ i + r →
      cli_steps env md cycle thetaPLC thetaSONG it i r =
        ((((md.modulations.drop i).take (k - 1 - i)).map
            (stepPair md thetaPLC thetaSONG it)).flatten
          ++ stepFail md thetaPLC thetaSONG it k cycle, 1) := by
  intro r
  induction r with
  | zero => intro i h1 h2; omega
  | succ n ih =>
    intro i hik hk
    have hi : i < md.modulations.length := by omega
    have hgetD : md.modulations.getD i default = md.modulations[i] := by
      simp [List.getD_eq_getElem?_getD, List.getElem?_eq_getElem hi]
    rw [cli_steps]
    simp only [hab (i + 1) (by omega), hplc (i + 1) (by omega)]
    by_cases hik1 : i + 1 = k
    · have hf : env.song_status cycle (i + 1) ≠ 0 := by rw [hik1]; exact hfail
      rw [if_neg (by simp), if_neg (by simp), if_pos hf]
      have : k - 1 - i = 0 := by omega
      rw [this]
      simp only [List.take_zero, List.map_nil, List.flatten_nil, List.nil_append]
      rw [stepFail, stepPair]
      have : k - 1 = i := by omega
      rw [this, hgetD]
      simp [hik1]
    · have hlt : i + 1 < k := by omega
      have hs : env.song_status cycle (i + 1) = 0 := hsong_ok (i + 1) hlt
      rw [if_neg (by simp), if_neg (by simp), if_neg (by simp [hs])]
      rw [ih (i + 1) (by omega) (by omega)]
      have hdrop : md.modulations.drop i
          = md.modulations[i] :: md.modulations.drop (i + 1) :=
        List.drop_eq_getElem_cons hi
      have htake : k - 1 - i = (k - 1 - (i + 1)) + 1 := by omega
      rw [htake, hdrop, List.take_succ_cons, List.map_cons, List.flatten_cons, hgetD]
      simp [stepPair]

theorem cli_cycles_songfail (env : Env) (md : ModData) (k c : Nat)
    (hab : ∀ c' s, env.aborted c' s = false)
    (hplc : ∀ c' s, env.plc_status c' s = 0)
    (hsong_ok : ∀ c' s, (c' < c ∨ (c' = c ∧ s < k)) → env.song_status c' s = 0)
    (hfail : env.song_status c k ≠ 0)
    (hk1 : 1 ≤ k) (hk2 : k ≤ md.modulations_count)
    (hcount : md.modulations_count = md.modulations.length) :
    ∀ (n cidx : Nat) (theta : Rat), cidx ≤ c → c < cidx + n →
      (∀ j, j < n → theta + (j : Rat) * md.offset_angle ≠ 999) →
      cli_cycles env md n cidx theta =
        (((List.range (c - cidx)).map
            (fun j : Nat => cyclePairs md (theta + (j : Rat) * md.offset_angle))).flatten
          ++ partialCalib md (theta + ((c - cidx : Nat) : Rat) * md.offset_angle) k c,
          false) := by
  intro n
  induction n with
  | zero => intro cidx theta h1 h2 _; omega
  | succ m ih =>
    intro cidx theta hc1 hc2 hθ
    have h0 : theta ≠ 999 := by simpa using hθ 0 (Nat.succ_pos m)
    rw [cli_cycles]
    by_cases hcc : cidx = c
    · subst hcc
      rw [cli_process_modulations, if_pos h0]
      rw [cli_steps_songfail env md cidx (some theta) theta "CALIB" k
        (fun s _ => hab cidx s) (fun s _ => hplc cidx s)
        (fun s hs => hsong_ok cidx s (Or.inr ⟨rfl, hs⟩)) hfail
        (by omega) md.modulations_count 0 (by omega) (by omega)]
      simp only [ge_iff_le]
      rw [if_pos (by norm_num)]
      simp only [Nat.sub_self, List.range_zero, List.map_nil, List.flatten_nil,
        List.nil_append, Nat.cast_zero, zero_mul, add_zero, List.drop_zero,
        Nat.sub_zero, partialCalib]
    · have hlt : cidx < c := by omega
      rw [cli_process_modulations_calib env md cidx theta h0 hcount
        (hab cidx) (hplc cidx) (fun s => hsong_ok cidx s (Or.inl hlt))]
      simp only [ge_iff_le]
      rw [if_neg (by norm_num)]
      have hθ2 : ∀ j, j < m →
          theta + md.offset_angle + (j : Rat) * md.offset_angle ≠ 999 := by
        intro j hj
        have h := hθ (j + 1) (by omega)
        have heq : theta + ((j : Nat) + 1 : Rat) * md.offset_angle
            = theta + md.offset_angle + (j : Rat) * md.offset_angle := by ring
        rw [← heq]
        simpa using h
      rw [ih (cidx + 1) (theta + md.offset_angle) (by omega) (by omega) hθ2]
      have hsplit : c - cidx = (c - (cidx + 1)) + 1 := by omega
      have hmap : List.map ((fun j : Nat =>
            cyclePairs md (theta + (j : Rat) * md.offset_angle)) ∘ Nat.succ)
            (List.range (c - (cidx + 1)))
          = List.map (fun j : Nat => cyclePairs md
            (theta + md.offset_angle + (j : Rat) * md.offset_angle))
            (List.range (c - (cidx + 1))) := by
        apply List.map_congr_left
        intro a _
        simp only [Function.comp_apply, Nat.succ_eq_add_one]
        congr 1
        push_cast
        ring
      have hcast : theta + md.offset_angle
            + ((c - (cidx + 1) : Nat) : Rat) * md.offset_angle
          = theta + ((c - (cidx + 1) + 1 : Nat) : Rat) * md.offset_angle := by
        push_cast
        ring
      rw [hcast, hsplit, List.range_succ_eq_map, List.map_cons, List.flatten_cons,
        List.map_map, hmap]
      simp

end Musolsong

namespace Musolsong

/-- Detector fails at cycle 2, step 1; everything else succeeds. -/
def exEnvSongFailC2S1 : Env :=
  { set_mode_status := 0, aborted := fun _ _ => false, plc_status := fun _ _ => 0,
    plc_ret := fun _ _ => (1, 2, 3, 4),
    song_status := fun c s => if c = 2 ∧ s = 1 then 5 else 0 }

/-- C9: if the detector returns a non-zero status on step `k` of cycle `c` of a
calibration run (all earlier calls succeeding, no abort), the CLI engine's
whole trace is: set_mode, the `c - 1` full earlier cycles, the first `k - 1`
pairs of cycle `c`, the failing step's pair, and the failure record naming step
`k` and cycle `c` — no positioner or detector call occurs after step (k, c),
no retry happens, and the run reports failure. -/
theorem claim9_theorem (env : Env) (md : ModData) (O k c : Nat)
    (hsm : env.set_mode_status = 0)
    (hmode : md.mode_uppercase ≠ "OBSERVATION")
    (hab : ∀ c' s, env.aborted c' s = false)
    (hplc : ∀ c' s, env.plc_status c' s = 0)
    (hsong_ok : ∀ c' s, (c' < c ∨ (c' = c ∧ s < k)) → env.song_status c' s = 0)
    (hfail : env.song_status c k ≠ 0)
    (hk1 : 1 ≤ k) (hk2 : k ≤ md.modulations_count)
    (hcount : md.modulations_count = md.modulations.length)
    (hO : 1 ≤ O) (hdiv : O ∣ 360) (hoff : md.offset_angle = (O : Rat))
    (hn : md.number_of_cycles = 360 / O)
    (hc1 : 1 ≤ c) (hc2 : c ≤ md.number_of_cycles) :
    cli_process_modulation_data env md =
      (Event.set_mode md.mode_uppercase ::
        (((List.range (c - 1)).map
          (fun j : Nat => cyclePairs md ((j : Rat) * (O : Rat)))).flatten
          ++ partialCalib md (((c - 1 : Nat) : Rat) * (O : Rat)) k c), false) := by
  have hO360 : O ≤ 360 := Nat.le_of_dvd (by norm_num) hdiv
  have hθ : ∀ j, j < md.number_of_cycles →
      (0 : Rat) + (j : Rat) * md.offset_angle ≠ 999 := by
    intro j hj
    rw [hoff, zero_add]
    have hjO : j * O + O ≤ 360 := by
      rw [hn] at hj
      have h2 : (j + 1) * O ≤ (360 / O) * O := Nat.mul_le_mul_right O hj
      have h3 : (360 / O) * O = 360 := Nat.div_mul_cancel hdiv
      rw [h3, Nat.succ_mul] at h2
      omega
    have hcast : ((j * O : Nat) : Rat) + ((O : Nat) : Rat) ≤ 360 := by
      rw [← Nat.cast_add]
      exact_mod_cast hjO
    have hO1 : (1 : Rat) ≤ (O : Rat) := by exact_mod_cast hO
    push_cast at hcast
    intro hcontra
    rw [hcontra] at hcast
    linarith
  rw [cli_process_modulation_data]
  rw [if_neg (by simp [hsm]), if_neg hmode]
  rw [cli_cycles_songfail env md k c hab hplc hsong_ok hfail hk1 hk2 hcount
    md.number_of_cycles 1 0 hc1 (by omega) hθ]
  simp only [zero_add, hoff]

/-- C9 witness: `mdCalib90` with the detector failing on step 1 of cycle 2:
the trace is set_mode, the full cycle 1, then the failing pair of cycle 2 at
theta 90 and the failure record — nothing after. -/
theorem claim9_witness :
    cli_process_modulation_data exEnvSongFailC2S1 mdCalib90 =
      (Event.set_mode "CALIBRATION" ::
        (((List.range 1).map
          (fun j : Nat => cyclePairs mdCalib90 ((j : Rat) * (90 : Rat)))).flatten
          ++ partialCalib mdCalib90 ((1 : Rat) * (90 : Rat)) 1 2), false) := by
  have h := claim9_theorem exEnvSongFailC2S1 mdCalib90 90 1 2 rfl (by decide)
    (fun _ _ => rfl) (fun _ _ => rfl)
    (by
      intro c' s h
      show (if c' = 2 ∧ s = 1 then (5 : Int) else 0) = 0
      rcases h with h | ⟨rfl, hs⟩
      · rw [if_neg (by omega)]
      · rw [if_neg (by omega)])
    (by decide) (by norm_num) (by norm_num [mdCalib90]) rfl (by norm_num) (by norm_num)
    (by norm_num [mdCalib90]) rfl (by norm_num) (by norm_num [mdCalib90])
  simpa using h

end Musolsong

namespace Musolsong

unseal Rat.add Rat.mul Rat.inv Rat.sub in
/-- C3 (counterexample): an aborted run and a device-failure run are reported
identically: the CLI `process_modulation_data` returns False for both, and the
GUI emits `processing_finished(False)` for both — no tagged outcome
distinguishes them at the run level. -/
theorem claim3_counterexample :
    (cli_process_modulation_data exEnvAbort mdObs2).2 = false ∧
      (cli_process_modulation_data exEnvSongFail mdObs2).2 = false ∧
      (gui_process_modulation_data exEnvAbort mdObs2).1.getLast?
        = some (.finished false) ∧
      (gui_process_modulation_data exEnvSongFail mdObs2).1.getLast?
        = some (.finished false) ∧
      (gui_process_modulation_data exEnvAbort mdObs2).2
        = (gui_process_modulation_data exEnvSongFail mdObs2).2 := by decide

unseal Rat.add Rat.mul Rat.inv Rat.sub in
/-- C3 (amended): only the inner CLI loop distinguishes abort (returns 2) from
a device failure (returns 1); the run-level result is a plain boolean —
`process_modulation_data` returns False and the GUI emits
`processing_finished(False)` for aborted and failed runs alike, True only for
completed ones.  No tagged RunOutcome is produced. -/
theorem claim3_amended :
    (∀ (env : Env) (md : ModData) (cyc : Nat) (theta : Rat),
      1 ≤ md.modulations_count → env.aborted cyc 1 = true →
        (cli_process_modulations env md cyc theta).2 = 2) ∧
      (∀ (env : Env) (md : ModData) (cyc : Nat) (theta : Rat),
        1 ≤ md.modulations_count → env.aborted cyc 1 = false →
          env.plc_status cyc 1 ≠ 0 →
          (cli_process_modulations env md cyc theta).2 = 1) ∧
      ((cli_process_modulation_data exEnvAbort mdObs2).2 = false ∧
        (cli_process_modulation_data exEnvSongFail mdObs2).2 = false ∧
        (gui_process_modulation_data exEnvAbort mdObs2).2 = false ∧
        (gui_process_modulation_data exEnvSongFail mdObs2).2 = false ∧
        (gui_process_modulation_data exEnvOk mdObs2).2 = true) := by
  refine ⟨?_, ?_, by decide, by decide, by decide, by decide, by decide⟩
  · intro env md cyc theta h1 habort
    cases hmc : md.modulations_count with
    | zero => omega
    | succ n =>
      rw [cli_process_modulations, hmc]
      split <;> (rw [cli_steps]; simp [habort])
  · intro env md cyc theta h1 habort hplc
    cases hmc : md.modulations_count with
    | zero => omega
    | succ n =>
      rw [cli_process_modulations, hmc]
      split <;> (rw [cli_steps]; simp [habort, hplc])

/-! ### GUI progress lemmas -/

theorem gui_steps_result_ok (env : Env) (md : ModData) (cycle : Nat)
    (thetaPLC : Option Rat) (thetaSONG : Rat) (it : String)
    (hab : ∀ s, env.aborted cycle s = false)
    (hplc : ∀ s, env.plc_status cycle s = 0)
    (hsong : ∀ s, env.song_status cycle s = 0) :
    ∀ r i, (gui_steps env md cycle thetaPLC thetaSONG it i r).2 = 0 := by
  intro r
  induction r with
  | zero => intro i; simp [gui_steps]
  | succ n ih =>
    intro i
    rw [gui_steps]
    simp only [hab, hplc, hsong]
    simpa using ih (i + 1)

theorem gui_steps_pct (env : Env) (md : ModData) (cycle : Nat)
    (thetaPLC : Option Rat) (thetaSONG : Rat) (it : String)
    (hab : ∀ s, env.aborted cycle s = false)
    (hplc : ∀ s, env.plc_status cycle s = 0)
    (hsong : ∀ s, env.song_status cycle s = 0) :
    ∀ r i, progressPercentages (gui_steps env md cycle thetaPLC thetaSONG it i r).1 =
      (List.range r).map (fun t : Nat =>
        pyInt ((((cycle - 1) * md.modulations_count + (i + t) : Nat) : Rat)
          / ((md.modulations_count * md.number_of_cycles : Nat) : Rat) * 100)) := by
  intro r
  induction r with
  | zero => intro i; simp [gui_steps, progressPercentages]
  | succ n ih =>
    intro i
    rw [gui_steps]
    simp only [hab, hplc, hsong]
    rw [if_neg (by simp), if_neg (by simp), if_neg (by simp)]
    simp only [progressPercentages, List.filterMap_cons]
    rw [← progressPercentages, ih (i + 1)]
    rw [List.range_succ_eq_map, List.map_cons, List.map_map]
    simp only [prepare_updated_data_for_GUI]
    congr 1
    apply List.map_congr_left
    intro a _
    simp only [Function.comp_apply, Nat.succ_eq_add_one]
    have h : i + 1 + a = i + (a + 1) := by omega
    rw [h]

theorem gui_process_modulations_result_ok (env : Env) (md : ModData) (cycle : Nat)
    (theta : Rat)
    (hab : ∀ s, env.aborted cycle s = false)
    (hplc : ∀ s, env.plc_status cycle s = 0)
    (hsong : ∀ s, env.song_status cycle s = 0) :
    (gui_process_modulations env md cycle theta).2 = 0 := by
  rw [gui_process_modulations]
  split <;> exact gui_steps_result_ok env md cycle _ _ _ hab hplc hsong _ 0

theorem gui_process_modulations_pct (env : Env) (md : ModData) (cycle : Nat)
    (theta : Rat)
    (hab : ∀ s, env.aborted cycle s = false)
    (hplc : ∀ s, env.plc_status cycle s = 0)
    (hsong : ∀ s, env.song_status cycle s = 0) :
    progressPercentages (gui_process_modulations env md cycle theta).1 =
      (List.range md.modulations_count).map (fun t : Nat =>
        pyInt ((((cycle - 1) * md.modulations_count + t : Nat) : Rat)
          / ((md.modulations_count * md.number_of_cycles : Nat) : Rat) * 100)) := by
  rw [gui_process_modulations]
  split <;> (rw [gui_steps_pct env md cycle _ _ _ hab hplc hsong _ 0]; simp)

theorem gui_cycles_result_ok (env : Env) (md : ModData)
    (hab : ∀ c s, env.aborted c s = false)
    (hplc : ∀ c s, env.plc_status c s = 0)
    (hsong : ∀ c s, env.song_status c s = 0) :
    ∀ (n cidx : Nat) (theta : Rat), (gui_cycles env md n cidx theta).2 = 0 := by
  intro n
  induction n with
  | zero => intro cidx theta; simp [gui_cycles]
  | succ m ih =>
    intro cidx theta
    rw [gui_cycles]
    rw [if_neg (by
      rw [gui_process_modulations_result_ok env md cidx theta
        (hab cidx) (hplc cidx) (hsong cidx)]
      norm_num)]
    simpa using ih (cidx + 1) (theta + md.offset_angle)

theorem gui_cycles_pct (env : Env) (md : ModData)
    (hab : ∀ c s, env.aborted c s = false)
    (hplc : ∀ c s, env.plc_status c s = 0)
    (hsong : ∀ c s, env.song_status c s = 0) :
    ∀ (n cidx : Nat) (theta : Rat), 1 ≤ cidx →
      progressPercentages (gui_cycles env md n cidx theta).1 =
        (List.range (n * md.modulations_count)).map (fun s : Nat =>
          pyInt ((((cidx - 1) * md.modulations_count + s : Nat) : Rat)
            / ((md.modulations_count * md.number_of_cycles : Nat) : Rat) * 100)) := by
  intro n
  induction n with
  | zero => intro cidx theta _; simp [gui_cycles, progressPercentages]
  | succ m ih =>
    intro cidx theta hcidx
    obtain ⟨p, rfl⟩ : ∃ p, cidx = p + 1 := ⟨cidx - 1, by omega⟩
    rw [gui_cycles]
    rw [if_neg (by
      rw [gui_process_modulations_result_ok env md (p + 1) theta
        (hab (p + 1)) (hplc (p + 1)) (hsong (p + 1))]
      norm_num)]
    simp only [progressPercentages, List.filterMap_append]
    rw [← progressPercentages, ← progressPercentages,
      gui_process_modulations_pct env md (p + 1) theta
        (hab (p + 1)) (hplc (p + 1)) (hsong (p + 1)),
      ih (p + 1 + 1) (theta + md.offset_angle) (by omega)]
    rw [show (m + 1) * md.modulations_count
      = md.modulations_count + m * md.modulations_count from by ring]
    rw [List.range_add, List.map_append, List.map_map]
    congr 1
    apply List.map_congr_left
    intro a _
    simp only [Function.comp_apply]
    have hX : (p + 1 - 1) * md.modulations_count + (md.modulations_count + a)
        = (p + 1 + 1 - 1) * md.modulations_count + a := by
      have e1 : p + 1 - 1 = p := by omega
      have e2 : p + 1 + 1 - 1 = p + 1 := by omega
      rw [e1, e2]
      ring
    rw [hX]

end Musolsong

namespace Musolsong

theorem progressPercentages_append (l1 l2 : List Event) :
    progressPercentages (l1 ++ l2) = progressPercentages l1 ++ progressPercentages l2 := by
  simp [progressPercentages]

theorem progressPercentages_set_mode (m : String) (l : List Event) :
    progressPercentages (.set_mode m :: l) = progressPercentages l := by
  simp [progressPercentages]

theorem progressPercentages_finished (b : Bool) :
    progressPercentages [.finished b] = [] := by
  simp [progressPercentages]

/-- C1 (amended): in an all-success calibration run the worker emits one
ProgressEvent per step, carrying `int(j / (count × cycles) × 100)` where `j`
is the number of steps fully completed *before* the current step (0-based): the
percentages are `int(j/T×100)` for `j = 0 .. T-1`, so the final emitted
percentage is `int((T-1)/T×100)` — e.g. 87 for the offset-90, 2-modulation
plan — and never 100, although the run itself completes successfully. -/
theorem claim1_amended (env : Env) (md : ModData) (henv : EnvOk env)
    (hmode : md.mode_uppercase ≠ "OBSERVATION") :
    progressPercentages (gui_process_modulation_data env md).1 =
      (List.range (md.number_of_cycles * md.modulations_count)).map (fun s : Nat =>
        pyInt ((s : Rat)
          / ((md.modulations_count * md.number_of_cycles : Nat) : Rat) * 100)) ∧
      (gui_process_modulation_data env md).2 = true := by
  obtain ⟨hsm, hab, hplc, hsong⟩ := henv
  rw [gui_process_modulation_data]
  dsimp only
  rw [if_pos hsm, if_neg hmode]
  rw [if_neg (by rw [gui_cycles_result_ok env md hab hplc hsong]; norm_num)]
  refine ⟨?_, rfl⟩
  dsimp only
  simp only [progressPercentages_set_mode, progressPercentages_append,
    progressPercentages_finished, List.append_nil]
  rw [gui_cycles_pct env md hab hplc hsong md.number_of_cycles 1 0 (by omega)]
  apply List.map_congr_left
  intro s _
  norm_num

/-- C1 witness: the all-success offset-90 calibration run. -/
theorem claim1_witness :
    progressPercentages (gui_process_modulation_data exEnvOk mdCalib90).1 =
      (List.range (mdCalib90.number_of_cycles * mdCalib90.modulations_count)).map
        (fun s : Nat => pyInt ((s : Rat)
          / ((mdCalib90.modulations_count * mdCalib90.number_of_cycles : Nat) : Rat)
          * 100)) ∧
      (gui_process_modulation_data exEnvOk mdCalib90).2 = true :=
  claim1_amended exEnvOk mdCalib90
    ⟨rfl, fun _ _ => rfl, fun _ _ => rfl, fun _ _ => rfl⟩ (by decide)

unseal Rat.add Rat.mul Rat.inv Rat.sub in
/-- C1 (counterexample): in the all-success run of the Calibration plan with
offset 90 and 2 modulations per cycle the emitted percentages are
0, 12, 25, 37, 50, 62, 75, 87: the final emitted progress percentage is 87,
not 100, although the run completes successfully. -/
theorem claim1_counterexample :
    progressPercentages (gui_process_modulation_data exEnvOk mdCalib90).1
      = [0, 12, 25, 37, 50, 62, 75, 87] ∧
      (gui_process_modulation_data exEnvOk mdCalib90).2 = true ∧
      (progressPercentages (gui_process_modulation_data exEnvOk mdCalib90).1).getLast?
        = some 87 := by decide

/-- C2 (amended): the per-step protocol is (1) abort-flag check, (2) positioner
set_modulation, (3) ProgressEvent emission, (4) detector acquire: once the
positioner call succeeds the ProgressEvent is emitted *before* the detector
call, so it does not wait for the detector's success. -/
theorem claim2_amended (env : Env) (md : ModData) (cycle : Nat)
    (thetaPLC : Option Rat) (thetaSONG : Rat) (it : String) (i r : Nat)
    (hab : env.aborted cycle (i + 1) = false)
    (hplc : env.plc_status cycle (i + 1) = 0) :
    (gui_steps env md cycle thetaPLC thetaSONG it i (r + 1)).1 =
      Event.plc_set_modulation (md.modulations.getD i default).alpha
          (md.modulations.getD i default).beta thetaPLC
        :: Event.progress (prepare_updated_data_for_GUI md.modulations_count
            md.number_of_cycles cycle (i + 1) (env.plc_ret cycle (i + 1)).1
            (env.plc_ret cycle (i + 1)).2.1 (env.plc_ret cycle (i + 1)).2.2.1
            (env.plc_ret cycle (i + 1)).2.2.2
            (md.modulations.getD i default).SONG_int_time)
        :: Event.song_acquire md.proj_number md.proj_name
            (md.modulations.getD i default).SONG_int_time it
            (md.modulations.getD i default).alpha (md.modulations.getD i default).beta
            thetaSONG (descOf (md.modulations.getD i default))
        :: (if env.song_status cycle (i + 1) = 0
            then (gui_steps env md cycle thetaPLC thetaSONG it (i + 1) r).1
            else [Event.song_fail (i + 1) cycle]) := by
  rw [gui_steps]
  simp only [hab, hplc]
  rw [if_neg (by simp), if_neg (by simp)]
  by_cases hs : env.song_status cycle (i + 1) = 0
  · rw [if_neg (by simp [hs]), if_pos hs]
  · rw [if_pos hs, if_neg hs]

/-- C2 witness: concrete instance of the per-step order (detector failing). -/
theorem claim2_witness :
    (gui_steps exEnvSongFail mdObs2 1 none 999 "SUN" 0 1).1 =
      Event.plc_set_modulation (mdObs2.modulations.getD 0 default).alpha
          (mdObs2.modulations.getD 0 default).beta none
        :: Event.progress (prepare_updated_data_for_GUI mdObs2.modulations_count
            mdObs2.number_of_cycles 1 1 (exEnvSongFail.plc_ret 1 1).1
            (exEnvSongFail.plc_ret 1 1).2.1 (exEnvSongFail.plc_ret 1 1).2.2.1
            (exEnvSongFail.plc_ret 1 1).2.2.2
            (mdObs2.modulations.getD 0 default).SONG_int_time)
        :: Event.song_acquire mdObs2.proj_number mdObs2.proj_name
            (mdObs2.modulations.getD 0 default).SONG_int_time "SUN"
            (mdObs2.modulations.getD 0 default).alpha
            (mdObs2.modulations.getD 0 default).beta
            999 (descOf (mdObs2.modulations.getD 0 default))
        :: (if exEnvSongFail.song_status 1 1 = 0
            then (gui_steps exEnvSongFail mdObs2 1 none 999 "SUN" 1 0).1
            else [Event.song_fail 1 1]) :=
  claim2_amended exEnvSongFail mdObs2 1 none 999 "SUN" 0 0 rfl rfl

unseal Rat.add Rat.mul Rat.inv Rat.sub in
/-- C2 (counterexample): with the detector failing on step 1, the run's full
trace still contains a ProgressEvent for step 1, emitted after the positioner
call but *before* the (failed) detector call — so the ProgressEvent is not
emitted after both device calls have succeeded, and the claimed order
(positioner, detector, ProgressEvent) does not hold. -/
theorem claim2_counterexample :
    gui_process_modulation_data exEnvSongFail mdObs2 =
      ([.set_mode "OBSERVATION",
        .plc_set_modulation 45 90 none,
        .progress ⟨0, 1, 1, 1, 1, 2, 3, 4, 3/2⟩,
        .song_acquire 7 "obs" (3/2) "SUN" 45 90 999 " ",
        .song_fail 1 1,
        .finished false], false) ∧
      (progressPercentages (gui_process_modulation_data exEnvSongFail mdObs2).1).length
        = 1 := by decide

end Musolsong
